import Mathlib

/-!
Verification of the Jenkins Prometheus exporter (`jenkins_exporter.py`).

The development shallowly embeds the core pipeline of the exporter:
the HTTP API client (`_api_call`), the recursive job-tree flattener
(`parse_jobs`), the per-build run-outcome aggregator (`parse_job_runs`),
and the metric projection stage (`_setup_empty_prometheus_metrics`,
`_get_metrics`, `_add_data_to_prometheus_structure`), as driven by
`collect`.

Remote state (the Jenkins server) is embedded as a tree of nodes in
which every HTTP response the program would observe is recorded:
each folder node carries the status code and JSON-decode outcome of
the API call made at its URL together with the child list that call
would return, and each build reference carries the response of the
build's own status endpoint.  Python exceptions are embedded as
`Except Err`; the generator `collect` yields no sample before
`_request_data` and the projection loop complete, so a raised
exception yields the error with zero samples, which the embedding
renders as `Except.error`.
-/

namespace JenkinsExporter

/-- Exceptions the exporter can raise: the `_api_call` failure for a
non-OK HTTP status (carrying the URL and status code, line 64 of the
source), a JSON decode failure from `response.json()` (line 65), and
the Python `TypeError` raised by `int - None` in the passCount
computation (line 190). -/
inductive Err where
  | httpStatus (url : String) (code : Nat)
  | badJson (url : String)
  | typeError
deriving DecidableEq, Repr

/-- An HTTP response as the program observes it: the status code and
the result of decoding the body as JSON (already typed with the shape
the caller expects). -/
structure HttpResponse (α : Type) where
  status : Nat
  body : Except String α

/-- `JenkinsCollector._api_call` (lines 56-69): raises when
`response.status_code != requests.codes.ok` (i.e. `!= 200`), otherwise
returns `response.json()`, whose decode failure also raises. -/
def apiCall {α : Type} (url : String) (resp : HttpResponse α) : Except Err α :=
  if resp.status ≠ 200 then .error (.httpStatus url resp.status)
  else match resp.body with
    | .ok v => .ok v
    | .error _ => .error (.badJson url)

/-- A 2xx HTTP success status. -/
def is2xx (s : Nat) : Bool := 200 ≤ s && s < 300

/-- The JSON payload of a build's own status endpoint
(`{buildURL}api/json`): the `result` field (a string or JSON null)
and the build `number`. -/
structure WfData where
  result : Option String
  number : Int
deriving DecidableEq, Repr

/-- One entry of a job's `builds` list together with the response its
status endpoint would return: the callback `url`, the HTTP status and
JSON-decode outcome of `GET url + 'api/json'`, and the decoded payload
when the call succeeds. -/
structure BuildEntry where
  url : String
  respStatus : Nat
  respOk : Bool
  payload : WfData
deriving DecidableEq, Repr

/-- The API call `self._api_call(workflow_run['url'] + 'api/json', {})`
of line 79, reading the recorded response of the build entry. -/
def fetchBuild (b : BuildEntry) : Except Err WfData :=
  apiCall (b.url ++ "api/json")
    ⟨b.respStatus, if b.respOk then .ok b.payload else .error "decode"⟩

/-- One element of a build snapshot's `actions` list, restricted to the
recognized counter fields (other action payload keys are never read).
`none` stands for an absent key or a JSON null value. -/
structure ActionEntry where
  queuingDurationMillis : Option Int := none
  totalDurationMillis : Option Int := none
  skipCount : Option Int := none
  failCount : Option Int := none
  totalCount : Option Int := none
deriving DecidableEq, Repr

/-- The empty dict placeholder `{}` used at line 175 when `actions`
is absent. -/
def ActionEntry.empty : ActionEntry := {}

/-- A per-status build snapshot (`job[status]`): the numeric fields the
projection reads plus the `actions` list. `none` stands for an absent
key or a JSON null value. -/
structure Snapshot where
  number : Option Int := none
  timestamp : Option Int := none
  duration : Option Int := none
  actions : Option (List ActionEntry) := none
deriving DecidableEq, Repr

/-- The empty dict `{}` substituted for a null snapshot at line 164. -/
def Snapshot.empty : Snapshot := {}

/-- A node of the remote job tree as the traversal observes it: its
`_class`, `fullName` and `url` fields, its `builds` list, its
per-status snapshot keys (a pair `(s, none)` is the key `s` bound to
JSON null; a missing pair is an absent key), and — for folder-kind
nodes — the HTTP status, JSON-decode outcome and child list of the
API call `GET url + '/api/json'` made when recursing into it. -/
inductive RNode where
  | mk (cls fullName url : String)
       (builds : List BuildEntry)
       (statuses : List (String × Option Snapshot))
       (subStatus : Nat) (subOk : Bool)
       (children : List RNode)

def RNode.cls : RNode → String
  | .mk c _ _ _ _ _ _ _ => c

def RNode.fullName : RNode → String
  | .mk _ fn _ _ _ _ _ _ => fn

def RNode.url : RNode → String
  | .mk _ _ u _ _ _ _ _ => u

def RNode.builds : RNode → List BuildEntry
  | .mk _ _ _ b _ _ _ _ => b

def RNode.statuses : RNode → List (String × Option Snapshot)
  | .mk _ _ _ _ s _ _ _ => s

def RNode.subStatus : RNode → Nat
  | .mk _ _ _ _ _ st _ _ => st

def RNode.subOk : RNode → Bool
  | .mk _ _ _ _ _ _ ok _ => ok

def RNode.children : RNode → List RNode
  | .mk _ _ _ _ _ _ _ ch => ch

/-- The three `_class` values recognized as folders (lines 94-96). -/
def folderClass : String := "com.cloudbees.hudson.plugins.folder.Folder"

def orgFolderClass : String := "jenkins.branch.OrganizationFolder"

def multibranchClass : String :=
  "org.jenkinsci.plugins.workflow.multibranch.WorkflowMultiBranchProject"

def folderClasses : List String := [folderClass, orgFolderClass, multibranchClass]

/-- The two leaf `_class` values driving run-outcome aggregation (line 73). -/
def workflowJobClass : String := "org.jenkinsci.plugins.workflow.job.WorkflowJob"

def freeStyleClass : String := "hudson.model.FreeStyleProject"

/-- A flattened leaf job as handed to the projection stage: the fields
of the node plus the run-outcome counts that `parse_job_runs` may have
added to the dict (`none` when the keys were not added). -/
structure Job where
  className : String
  fullName : String
  statuses : List (String × Option Snapshot)
  runs : Option (Nat × Nat)
deriving DecidableEq, Repr

/-- The loop body of `parse_job_runs` (lines 78-83): fetch each build's
status, collecting the numbers of `SUCCESS` results and of `FAILURE`
results, in order. A failed fetch propagates. -/
def classifyBuilds : List BuildEntry → Except Err (List Int × List Int)
  | [] => .ok ([], [])
  | b :: bs =>
    match fetchBuild b with
    | .error e => .error e
    | .ok wf =>
      match classifyBuilds bs with
      | .error e => .error e
      | .ok (s, f) =>
        .ok (if wf.result = some "SUCCESS" then wf.number :: s else s,
             if wf.result = some "FAILURE" then wf.number :: f else f)

/-- `JenkinsCollector.parse_job_runs` (lines 71-88): for a WorkflowJob
or FreeStyleProject with a non-empty `builds` list, classify every
build and record `runs_successful_total` / `runs_failed_total` as the
lengths of the collected lists; otherwise leave the job untouched. -/
def parseJobRuns (n : RNode) : Except Err Job :=
  if n.cls = workflowJobClass ∨ n.cls = freeStyleClass then
    if n.builds.isEmpty then .ok ⟨n.cls, n.fullName, n.statuses, none⟩
    else
      match classifyBuilds n.builds with
      | .error e => .error e
      | .ok (s, f) => .ok ⟨n.cls, n.fullName, n.statuses, some (s.length, f.length)⟩
  else .ok ⟨n.cls, n.fullName, n.statuses, none⟩

/-- The loop of `JenkinsCollector.parse_jobs` (lines 92-101) over the
`jobs` list of one API response: a folder-kind child triggers a
recursive call `parse_jobs(job['url'] + '/api/json', params)` — whose
API call's status check and JSON decode are those of `_api_call`
(lines 63-65) on the response recorded at the node — and its results
are appended; any other child is run through `parse_job_runs` and
appended itself. -/
def parseChildren : List RNode → Except Err (List Job)
  | [] => .ok []
  | RNode.mk cls fn url builds sts subStatus subOk children :: rest =>
    if cls = folderClass ∨ cls = orgFolderClass ∨ cls = multibranchClass then
      if subStatus ≠ 200 then .error (.httpStatus (url ++ "/api/json") subStatus)
      else if subOk = false then .error (.badJson (url ++ "/api/json"))
      else
        match parseChildren children with
        | .error e => .error e
        | .ok here =>
          match parseChildren rest with
          | .error e => .error e
          | .ok more => .ok (here ++ more)
    else
      match parseJobRuns (RNode.mk cls fn url builds sts subStatus subOk children) with
      | .error e => .error e
      | .ok j =>
        match parseChildren rest with
        | .error e => .error e
        | .ok more => .ok (j :: more)

/-- `JenkinsCollector._request_data` (lines 103-114): one API call at
`{target}/api/json` (with the recorded root response) whose `jobs`
list is flattened by `parse_jobs`. -/
def requestData (target : String) (root : HttpResponse (List RNode)) :
    Except Err (List Job) :=
  match apiCall (target ++ "/api/json") root with
  | .error e => .error e
  | .ok children => parseChildren children

/-- Follows the spec's words (§4.2): the output sequence is the API's
reported order concatenated depth-first — a folder contributes its
transitive leaf descendants, children before the folder's next
sibling, and never itself. Stated for comparison with `parseChildren`. -/
def specDepthFirstLeaves : List RNode → List RNode
  | [] => []
  | (RNode.mk cls fn url builds sts subStatus subOk children) :: rest =>
    (if cls = folderClass ∨ cls = orgFolderClass ∨ cls = multibranchClass then
      specDepthFirstLeaves children
     else [RNode.mk cls fn url builds sts subStatus subOk children])
      ++ specDepthFirstLeaves rest

/-! ### Metric projection -/

/-- The seven tracked build statuses (`JenkinsCollector.statuses`,
lines 21-23), in source order. -/
def statuses : List String :=
  ["lastBuild", "lastCompletedBuild", "lastFailedBuild",
   "lastStableBuild", "lastSuccessfulBuild", "lastUnstableBuild",
   "lastUnsuccessfulBuild"]

/-- The per-status metric fields, in the dict insertion order of
`_setup_empty_prometheus_metrics` (lines 121-151). -/
def fieldOrder : List String :=
  ["number", "duration", "timestamp", "queuingDurationMillis",
   "totalDurationMillis", "skipCount", "failCount", "totalCount", "passCount"]

/-- The snake-case conversion of line 120:
`re.sub('([A-Z])', '_\\1', status).lower()` — an underscore is
inserted before every ASCII uppercase letter, then the whole string is
lowercased. -/
def snakeCase (status : String) : String :=
  String.mk
    ((status.data.flatMap fun c => if c.isUpper then ['_', c] else [c]).map
      Char.toLower)

/-- The gauge family name chosen for each (status, field) pair in
`_setup_empty_prometheus_metrics` (lines 122-150). -/
def famName (status field : String) : String :=
  let snake := snakeCase status
  if field = "number" then "jenkins_job_" ++ snake
  else if field = "duration" then "jenkins_job_" ++ snake ++ "_duration_seconds"
  else if field = "timestamp" then "jenkins_job_" ++ snake ++ "_timestamp_seconds"
  else if field = "queuingDurationMillis" then
    "jenkins_job_" ++ snake ++ "_queuing_duration_seconds"
  else if field = "totalDurationMillis" then
    "jenkins_job_" ++ snake ++ "_total_duration_seconds"
  else if field = "skipCount" then "jenkins_job_" ++ snake ++ "_skip_count"
  else if field = "failCount" then "jenkins_job_" ++ snake ++ "_fail_count"
  else if field = "totalCount" then "jenkins_job_" ++ snake ++ "_total_count"
  else "jenkins_job_" ++ snake ++ "_pass_count"

/-- The two run-outcome gauge family names (lines 154-159). -/
def runFamName (key : String) : String :=
  if key = "runs_successful_total" then "jenkins_runs_successful_total"
  else "jenkins_runs_failed_total"

/-- One emitted sample of a gauge family: the label value (the job's
full name) and the sample value. -/
structure MetricSample where
  metricName : String
  label : String
  value : ℚ
deriving DecidableEq, Repr

/-- The collector's mutable metric structures: `_prometheus_metrics`
(per (status, field) sample lists) and `_job_runs_metrics` (per run
key).  Each family is its list of `(label, value)` samples in the
order `add_metric` appended them. -/
structure PState where
  fams : String × String → List (String × ℚ)
  runs : String → List (String × ℚ)

/-- `self._prometheus_metrics[status][field].add_metric([name], v)`. -/
def PState.addFam (st : PState) (key : String × String) (label : String)
    (v : ℚ) : PState :=
  ⟨fun k => if k = key then st.fams k ++ [(label, v)] else st.fams k, st.runs⟩

/-- `self._job_runs_metrics[key].add_metric([name], v)`. -/
def PState.addRun (st : PState) (key : String) (label : String) (v : ℚ) : PState :=
  ⟨st.fams, fun k => if k = key then st.runs k ++ [(label, v)] else st.runs k⟩

/-- `_setup_empty_prometheus_metrics` (lines 116-159): the previous
contents of both dicts are discarded and every family starts with an
empty sample list. -/
def setupEmptyPrometheusMetrics (_old : PState) : PState :=
  ⟨fun _ => [], fun _ => []⟩

/-- Python truthiness of `dict.get(field, 0)` / `dict.get(field, False)`
for a numeric JSON field: false exactly when the key is absent, null,
or its value is 0. -/
def truthyInt : Option Int → Bool
  | some v => v != 0
  | none => false

/-- The numeric value read back by the unguarded second `get`
(e.g. `status_data.get('duration')` on line 170), as a rational. -/
def optVal (v : Option Int) : ℚ := ((v.getD 0 : Int) : ℚ)

/-- Lines 169-174 of `_add_data_to_prometheus_structure`: the three
top-level snapshot fields, each emitted only when truthy, with
duration and timestamp divided by 1000.0. -/
def addTopFields (st : PState) (status : String) (sd : Snapshot)
    (name : String) : PState :=
  let st := if truthyInt sd.duration then
    st.addFam (status, "duration") name (optVal sd.duration / 1000) else st
  let st := if truthyInt sd.timestamp then
    st.addFam (status, "timestamp") name (optVal sd.timestamp / 1000) else st
  if truthyInt sd.number then
    st.addFam (status, "number") name (optVal sd.number) else st

/-- Lines 177-186: the first four gated counter fields of one
iteration of the loop over `actions_metrics`; the millisecond
durations are divided by 1000.0. -/
def addCounterFields (st : PState) (status name : String) (e : ActionEntry) :
    PState :=
  let st := if truthyInt e.queuingDurationMillis then
    st.addFam (status, "queuingDurationMillis") name
      (optVal e.queuingDurationMillis / 1000) else st
  let st := if truthyInt e.totalDurationMillis then
    st.addFam (status, "totalDurationMillis") name
      (optVal e.totalDurationMillis / 1000) else st
  let st := if truthyInt e.skipCount then
    st.addFam (status, "skipCount") name (optVal e.skipCount) else st
  if truthyInt e.failCount then
    st.addFam (status, "failCount") name (optVal e.failCount) else st

/-- Lines 176-191: one iteration of the loop over `actions_metrics`.
In the truthy `totalCount` branch, `passcount` is computed as
`metric.get('totalCount') - metric.get('failCount') - metric.get('skipCount')`
where the two unguarded `get` calls return `None` when the key is
absent or null, making the subtraction raise `TypeError`. -/
def processActionEntry (st : PState) (status name : String) (e : ActionEntry) :
    Except Err PState :=
  let st := addCounterFields st status name e
  if truthyInt e.totalCount then
    let st := st.addFam (status, "totalCount") name (optVal e.totalCount)
    match e.failCount, e.skipCount with
    | some f, some s =>
      .ok (st.addFam (status, "passCount") name
        (((e.totalCount.getD 0 - f - s : Int) : ℚ)))
    | _, _ => .error .typeError
  else .ok st

/-- Lines 193-196: the run-outcome samples, emitted only when the
corresponding count was recorded on the job dict and is non-zero. -/
def addRunFields (st : PState) (job : Job) (name : String) : PState :=
  match job.runs with
  | some (s, f) =>
    let st := if s ≠ 0 then st.addRun "runs_successful_total" name (s : ℚ) else st
    if f ≠ 0 then st.addRun "runs_failed_total" name (f : ℚ) else st
  | none => st

/-- The fold of `processActionEntry` over the actions list. -/
def processActions (st : PState) (status name : String) :
    List ActionEntry → Except Err PState
  | [] => .ok st
  | e :: es =>
    match processActionEntry st status name e with
    | .error err => .error err
    | .ok st' => processActions st' status name es

/-- `JenkinsCollector._add_data_to_prometheus_structure` (lines
167-196): the top-level fields, then the loop over
`status_data.get('actions', [{}])`, then the run-outcome samples. -/
def addDataToPrometheusStructure (st : PState) (status : String) (sd : Snapshot)
    (job : Job) (name : String) : Except Err PState :=
  match processActions (addTopFields st status sd name) status name
      (sd.actions.getD [ActionEntry.empty]) with
  | .error e => .error e
  | .ok st' => .ok (addRunFields st' job name)

/-- The loop body of `_get_metrics` (lines 162-165) for one status
key: skipped when the key is absent from the job dict; a null value
is replaced by the empty dict (`job[status] or {}`). -/
def getMetricsStep (job : Job) (name : String) (st : PState) (status : String) :
    Except Err PState :=
  match job.statuses.lookup status with
  | none => .ok st
  | some osd =>
    addDataToPrometheusStructure st status (osd.getD Snapshot.empty) job name

/-- `JenkinsCollector._get_metrics` (lines 161-165): the loop over the
seven tracked statuses. -/
def getMetrics (st : PState) (name : String) (job : Job) : Except Err PState :=
  statuses.foldlM (getMetricsStep job name) st

/-- The fold of `_get_metrics` over the flattened job list (lines
39-44 of `collect`). -/
def projectLoop (st : PState) : List Job → Except Err PState
  | [] => .ok st
  | j :: js =>
    match getMetrics st j.fullName j with
    | .error e => .error e
    | .ok st' => projectLoop st' js

/-- The sample emission of `collect` (lines 46-51): one gauge family
per (status, field) pair in status-major, insertion order, then the
two run-outcome families, each family contributing its samples in
append order. -/
def emitSamples (st : PState) : List MetricSample :=
  (statuses.flatMap fun s => fieldOrder.flatMap fun f =>
    (st.fams (s, f)).map fun lv => ⟨famName s f, lv.1, lv.2⟩)
  ++ (["runs_successful_total", "runs_failed_total"].flatMap fun k =>
    (st.runs k).map fun lv => ⟨runFamName k, lv.1, lv.2⟩)

/-- The metric projection stage of one `collect` call (lines 37-51):
reset the metric structures — `prior` is whatever the collector object
held from an earlier scrape — run `_get_metrics` over every job, and
emit all samples. -/
def projectJobs (prior : PState) (jobs : List Job) : Except Err (List MetricSample) :=
  match projectLoop (setupEmptyPrometheusMetrics prior) jobs with
  | .error e => .error e
  | .ok st => .ok (emitSamples st)

/-- `JenkinsCollector.collect` (lines 31-54): `_request_data`, then the
projection stage.  An exception anywhere before the yield loops
propagates to the caller with no sample emitted, which the embedding
renders as `Except.error`. -/
def collect (prior : PState) (target : String)
    (root : HttpResponse (List RNode)) : Except Err (List MetricSample) :=
  match requestData target root with
  | .error e => .error e
  | .ok jobs => projectJobs prior jobs

/-! ### Supporting lemmas on the metric state -/

theorem fams_addFam (st : PState) (key : String × String) (l : String) (v : ℚ)
    (k : String × String) :
    (st.addFam key l v).fams k =
      if k = key then st.fams k ++ [(l, v)] else st.fams k := rfl

theorem runs_addFam (st : PState) (key : String × String) (l : String) (v : ℚ) :
    (st.addFam key l v).runs = st.runs := rfl

theorem fams_addRun (st : PState) (key l : String) (v : ℚ) :
    (st.addRun key l v).fams = st.fams := rfl

/-- `truthyInt` is false exactly on the values the source treats as
"not present": an absent/null key or the value 0. -/
theorem truthyInt_eq_false (v : Option Int) :
    truthyInt v = false ↔ v = none ∨ v = some 0 := by
  cases v <;> simp [truthyInt]

/-- A gated `add_metric` call seen as an append to the touched family. -/
theorem fams_addFam_ite (st : PState) (c : Prop) [Decidable c]
    (key : String × String) (l : String) (v : ℚ) (k : String × String) :
    (if c then st.addFam key l v else st).fams k =
      st.fams k ++ (if k = key ∧ c then [(l, v)] else []) := by
  by_cases hc : c <;> by_cases hk : k = key <;>
    simp [hc, hk, fams_addFam]

/-- The samples `addTopFields` appends to the family at key `k`. -/
def topAdds (sd : Snapshot) (status name : String) (k : String × String) :
    List (String × ℚ) :=
  (if k = (status, "duration") ∧ truthyInt sd.duration = true then
    [(name, optVal sd.duration / 1000)] else [])
  ++ (if k = (status, "timestamp") ∧ truthyInt sd.timestamp = true then
    [(name, optVal sd.timestamp / 1000)] else [])
  ++ (if k = (status, "number") ∧ truthyInt sd.number = true then
    [(name, optVal sd.number)] else [])

theorem addTopFields_fams (st : PState) (status : String) (sd : Snapshot)
    (name : String) (k : String × String) :
    (addTopFields st status sd name).fams k =
      st.fams k ++ topAdds sd status name k := by
  simp only [addTopFields, topAdds, fams_addFam_ite, List.append_assoc]

/-- The samples `addCounterFields` appends to the family at key `k`. -/
def counterAdds (e : ActionEntry) (status name : String) (k : String × String) :
    List (String × ℚ) :=
  (if k = (status, "queuingDurationMillis") ∧
      truthyInt e.queuingDurationMillis = true then
    [(name, optVal e.queuingDurationMillis / 1000)] else [])
  ++ (if k = (status, "totalDurationMillis") ∧
      truthyInt e.totalDurationMillis = true then
    [(name, optVal e.totalDurationMillis / 1000)] else [])
  ++ (if k = (status, "skipCount") ∧ truthyInt e.skipCount = true then
    [(name, optVal e.skipCount)] else [])
  ++ (if k = (status, "failCount") ∧ truthyInt e.failCount = true then
    [(name, optVal e.failCount)] else [])

/-- The samples one `processActionEntry` call appends to the family at
key `k`, provided the call does not raise. -/
def entryAdds (e : ActionEntry) (status name : String) (k : String × String) :
    List (String × ℚ) :=
  counterAdds e status name k
  ++ (if k = (status, "totalCount") ∧ truthyInt e.totalCount = true then
    [(name, optVal e.totalCount)] else [])
  ++ (if k = (status, "passCount") ∧ truthyInt e.totalCount = true then
    [(name, ((e.totalCount.getD 0 - e.failCount.getD 0 - e.skipCount.getD 0 : Int) : ℚ))]
   else [])

theorem addCounterFields_fams (st : PState) (status name : String)
    (e : ActionEntry) (k : String × String) :
    (addCounterFields st status name e).fams k =
      st.fams k ++ counterAdds e status name k := by
  simp only [addCounterFields, counterAdds, fams_addFam_ite, List.append_assoc]

theorem processActionEntry_fams (st : PState) (status name : String)
    (e : ActionEntry) (st' : PState)
    (h : processActionEntry st status name e = .ok st') (k : String × String) :
    st'.fams k = st.fams k ++ entryAdds e status name k := by
  rw [processActionEntry] at h
  simp only [entryAdds]
  by_cases ht : truthyInt e.totalCount = true
  · rw [if_pos ht] at h
    rcases hf : e.failCount with _ | f <;> rcases hs : e.skipCount with _ | s <;>
      rw [hf, hs] at h <;> cases h
    simp only [fams_addFam, addCounterFields_fams]
    by_cases hk1 : k = (status, "totalCount") <;>
      by_cases hk2 : k = (status, "passCount") <;>
      simp_all [ht, hf, hs, List.append_assoc]
  · rw [if_neg ht] at h
    cases h
    rw [addCounterFields_fams]
    simp [eq_false_of_ne_true ht]

theorem processActions_fams (status name : String) :
    ∀ (es : List ActionEntry) (st st' : PState),
    processActions st status name es = .ok st' →
    ∀ k, st'.fams k =
      st.fams k ++ es.flatMap (fun e => entryAdds e status name k)
  | [], st, st', h, k => by cases h; simp [processActions]
  | e :: es, st, st', h, k => by
    rw [processActions] at h
    cases hpe : processActionEntry st status name e with
    | error err => rw [hpe] at h; cases h
    | ok st1 =>
      rw [hpe] at h
      have ih := processActions_fams status name es st1 st' h k
      rw [ih, processActionEntry_fams st status name e st1 hpe k]
      simp

theorem addRunFields_fams (st : PState) (job : Job) (name : String) :
    (addRunFields st job name).fams = st.fams := by
  cases hr : job.runs with
  | none => simp [addRunFields, hr]
  | some p =>
    cases p with
    | mk s f =>
      simp only [addRunFields, hr]
      split_ifs <;> rfl

/-- Full characterization of the sample lists a successful
`_add_data_to_prometheus_structure` call appends to each per-status
gauge family. -/
theorem addData_fams (st st' : PState) (status : String) (sd : Snapshot)
    (job : Job) (name : String)
    (h : addDataToPrometheusStructure st status sd job name = .ok st')
    (k : String × String) :
    st'.fams k = st.fams k ++ topAdds sd status name k
      ++ (sd.actions.getD [ActionEntry.empty]).flatMap
          (fun e => entryAdds e status name k) := by
  rw [addDataToPrometheusStructure] at h
  cases hpa : processActions (addTopFields st status sd name) status name
      (sd.actions.getD [ActionEntry.empty]) with
  | error e => rw [hpa] at h; cases h
  | ok stm =>
    rw [hpa] at h
    cases h
    rw [addRunFields_fams,
      processActions_fams status name _ _ _ hpa k,
      addTopFields_fams st status sd name k]

/-! ### Supporting lemmas on the flattener and aggregator -/

theorem fetchBuild_ok (b : BuildEntry) (h1 : b.respStatus = 200)
    (h2 : b.respOk = true) : fetchBuild b = .ok b.payload := by
  simp [fetchBuild, apiCall, h1, h2]

theorem classifyBuilds_counts (bs : List BuildEntry)
    (h : ∀ b ∈ bs, b.respStatus = 200 ∧ b.respOk = true) :
    ∃ s f, classifyBuilds bs = .ok (s, f) ∧
      s.length = bs.countP (fun b => b.payload.result == some "SUCCESS") ∧
      f.length = bs.countP (fun b => b.payload.result == some "FAILURE") := by
  induction bs with
  | nil => exact ⟨[], [], rfl, rfl, rfl⟩
  | cons b bs ih =>
    obtain ⟨hb1, hb2⟩ := h b (List.mem_cons_self b bs)
    obtain ⟨s, f, hcb, hs, hf⟩ := ih (fun x hx => h x (List.mem_cons_of_mem b hx))
    refine ⟨if b.payload.result = some "SUCCESS" then b.payload.number :: s else s,
      if b.payload.result = some "FAILURE" then b.payload.number :: f else f,
      ?_, ?_, ?_⟩
    · rw [classifyBuilds, fetchBuild_ok b hb1 hb2, hcb]
    · rw [List.countP_cons]
      split_ifs with hres <;> simp_all
    · rw [List.countP_cons]
      split_ifs with hres <;> simp_all

theorem parseJobRuns_counts (n : RNode)
    (hcls : n.cls = workflowJobClass ∨ n.cls = freeStyleClass)
    (hne : ¬ n.builds.isEmpty)
    (hok : ∀ b ∈ n.builds, b.respStatus = 200 ∧ b.respOk = true) :
    parseJobRuns n = .ok ⟨n.cls, n.fullName, n.statuses,
      some (n.builds.countP (fun b => b.payload.result == some "SUCCESS"),
            n.builds.countP (fun b => b.payload.result == some "FAILURE"))⟩ := by
  obtain ⟨s, f, hcb, hs, hf⟩ := classifyBuilds_counts n.builds hok
  rw [parseJobRuns, if_pos hcls, if_neg hne, hcb]
  simp [hs, hf]

theorem parseJobRuns_noAgg (n : RNode)
    (h : n.builds = [] ∨ ¬(n.cls = workflowJobClass ∨ n.cls = freeStyleClass)) :
    parseJobRuns n = .ok ⟨n.cls, n.fullName, n.statuses, none⟩ := by
  rw [parseJobRuns]
  rcases h with h | h
  · split_ifs with h1 h2 <;> simp_all
  · rw [if_neg h]

theorem parseJobRuns_shape (n : RNode) (j : Job)
    (h : parseJobRuns n = .ok j) :
    j.className = n.cls ∧ j.fullName = n.fullName ∧ j.statuses = n.statuses := by
  rw [parseJobRuns] at h
  split_ifs at h
  · cases h; exact ⟨rfl, rfl, rfl⟩
  · cases hcb : classifyBuilds n.builds with
    | error e => rw [hcb] at h; cases h
    | ok p =>
      cases p with
      | mk s f => rw [hcb] at h; cases h; exact ⟨rfl, rfl, rfl⟩
  · cases h; exact ⟨rfl, rfl, rfl⟩

theorem specDepthFirstLeaves_no_folder : ∀ (ns : List RNode),
    ∀ n ∈ specDepthFirstLeaves ns,
      ¬(n.cls = folderClass ∨ n.cls = orgFolderClass ∨ n.cls = multibranchClass) := by
  intro ns
  induction ns using specDepthFirstLeaves.induct with
  | case1 => intro n hn; simp [specDepthFirstLeaves] at hn
  | case2 cls fn url builds sts subStatus subOk children rest ihc ihr =>
    intro n hn
    rw [specDepthFirstLeaves] at hn
    rcases List.mem_append.mp hn with hn | hn
    · split_ifs at hn with hfold
      · exact ihc n hn
      · rcases List.mem_singleton.mp hn with rfl
        exact hfold
    · exact ihr n hn

theorem parseChildren_ok_spec : ∀ (ns : List RNode) (js : List Job),
    parseChildren ns = .ok js →
    js.map (fun j => (j.className, j.fullName)) =
      (specDepthFirstLeaves ns).map (fun n => (n.cls, n.fullName)) := by
  intro ns
  induction ns using specDepthFirstLeaves.induct with
  | case1 =>
    intro js h
    rw [parseChildren] at h
    cases h
    rw [specDepthFirstLeaves]
    rfl
  | case2 cls fn url builds sts subStatus subOk children rest ihc ihr =>
    intro js h
    rw [parseChildren] at h
    rw [specDepthFirstLeaves]
    by_cases hfold : cls = folderClass ∨ cls = orgFolderClass ∨ cls = multibranchClass
    · rw [if_pos hfold] at h
      rw [if_pos hfold]
      split_ifs at h
      cases hch : parseChildren children with
      | error e => rw [hch] at h; cases h
      | ok here =>
        rw [hch] at h
        cases hre : parseChildren rest with
        | error e => rw [hre] at h; cases h
        | ok more =>
          rw [hre] at h
          cases h
          rw [List.map_append, List.map_append, ihc here hch, ihr more hre]
    · rw [if_neg hfold] at h
      rw [if_neg hfold]
      cases hj : parseJobRuns (RNode.mk cls fn url builds sts subStatus subOk children) with
      | error e => rw [hj] at h; cases h
      | ok j =>
        rw [hj] at h
        cases hre : parseChildren rest with
        | error e => rw [hre] at h; cases h
        | ok more =>
          rw [hre] at h
          cases h
          obtain ⟨h1, h2, h3⟩ := parseJobRuns_shape _ _ hj
          simp only [List.map_cons, List.map_append, List.map_nil, ihr more hre,
            List.singleton_append, h1, h2]

/-! ### Claims on the flattener and aggregator -/

/-- C3: the flattened sequence contains no folder-kind node — only
transitive leaf descendants — and its order is the API's reported
order concatenated depth-first, a folder's children before the
folder's next sibling, at arbitrary nesting depth (compared against
`specDepthFirstLeaves`, written from the spec's words). -/
theorem flattener_omits_folders_dfs_order (ns : List RNode) (js : List Job)
    (h : parseChildren ns = .ok js) :
    (∀ j ∈ js, ¬(j.className = folderClass ∨ j.className = orgFolderClass ∨
        j.className = multibranchClass))
    ∧ js.map (fun j => (j.className, j.fullName)) =
        (specDepthFirstLeaves ns).map (fun n => (n.cls, n.fullName)) := by
  have hmap := parseChildren_ok_spec ns js h
  refine ⟨?_, hmap⟩
  intro j hj
  have hmem : (j.className, j.fullName) ∈
      (specDepthFirstLeaves ns).map (fun n => (n.cls, n.fullName)) := by
    rw [← hmap]
    exact List.mem_map_of_mem _ hj
  obtain ⟨n, hn, he⟩ := List.mem_map.mp hmem
  have hnf := specDepthFirstLeaves_no_folder ns n hn
  have h1 : n.cls = j.className := congrArg Prod.fst he
  rw [← h1]
  exact hnf

/-- The nested-folder scenario `A/B/job1`: a two-level folder chain
whose innermost child is a single leaf job. -/
def nestedLeaf : RNode := .mk "org.some.OtherJob" "A/B/job1" "uJ" [] [] 200 true []

def nestedTree : RNode :=
  .mk folderClass "A" "uA" [] [] 200 true
    [.mk folderClass "A/B" "uB" [] [] 200 true [nestedLeaf]]

theorem flattener_omits_folders_dfs_order_witness :
    (∀ j ∈ [(⟨"org.some.OtherJob", "A/B/job1", [], none⟩ : Job)],
      ¬(j.className = folderClass ∨ j.className = orgFolderClass ∨
        j.className = multibranchClass))
    ∧ [(⟨"org.some.OtherJob", "A/B/job1", [], none⟩ : Job)].map
        (fun j => (j.className, j.fullName)) =
      (specDepthFirstLeaves [nestedTree]).map (fun n => (n.cls, n.fullName)) :=
  flattener_omits_folders_dfs_order [nestedTree]
    [⟨"org.some.OtherJob", "A/B/job1", [], none⟩]
    (by simp [parseChildren, nestedTree, nestedLeaf, parseJobRuns,
      folderClass, orgFolderClass, multibranchClass,
      workflowJobClass, freeStyleClass, RNode.cls, RNode.builds,
      RNode.fullName, RNode.statuses])

/-- C8: a child whose `_class` is none of the three folder kinds is
treated as a leaf and appended to the output, even when it is not a
WorkflowJob/FreeStyleProject or carries no build history, and this
raises no exception. -/
theorem non_folder_child_is_leaf_no_throw (cls fn url : String)
    (builds : List BuildEntry) (sts : List (String × Option Snapshot))
    (subStatus : Nat) (subOk : Bool) (children rest : List RNode)
    (hnf : ¬(cls = folderClass ∨ cls = orgFolderClass ∨ cls = multibranchClass))
    (hb : builds = [] ∨ ¬(cls = workflowJobClass ∨ cls = freeStyleClass)) :
    parseJobRuns (RNode.mk cls fn url builds sts subStatus subOk children) =
      .ok ⟨cls, fn, sts, none⟩
    ∧ ∀ js, parseChildren rest = .ok js →
        parseChildren (RNode.mk cls fn url builds sts subStatus subOk children :: rest) =
          .ok (⟨cls, fn, sts, none⟩ :: js) := by
  have hpr : parseJobRuns (RNode.mk cls fn url builds sts subStatus subOk children) =
      .ok ⟨cls, fn, sts, none⟩ :=
    parseJobRuns_noAgg (RNode.mk cls fn url builds sts subStatus subOk children) hb
  refine ⟨hpr, ?_⟩
  intro js hjs
  rw [parseChildren, if_neg hnf, hpr, hjs]

theorem non_folder_child_is_leaf_no_throw_witness :
    parseJobRuns (RNode.mk "jenkins.some.UnknownKind" "k" "uK" [] [] 200 true []) =
      .ok ⟨"jenkins.some.UnknownKind", "k", [], none⟩
    ∧ ∀ js, parseChildren [] = .ok js →
        parseChildren [RNode.mk "jenkins.some.UnknownKind" "k" "uK" [] [] 200 true []] =
          .ok (⟨"jenkins.some.UnknownKind", "k", [], none⟩ :: js) :=
  non_folder_child_is_leaf_no_throw "jenkins.some.UnknownKind" "k" "uK" [] [] 200
    true [] [] (by decide) (Or.inl rfl)

/-- The freestyle two-build scenario job of the spec (§8): builds b1
with result SUCCESS and b2 with result FAILURE, with the `lastBuild`
status key present (bound to null). -/
def scenarioNode : RNode :=
  .mk freeStyleClass "x" "uX"
    [⟨"b1/", 200, true, ⟨some "SUCCESS", 1⟩⟩,
     ⟨"b2/", 200, true, ⟨some "FAILURE", 2⟩⟩]
    [("lastBuild", none)] 200 true []

def scenarioJob : Job := ⟨freeStyleClass, "x", [("lastBuild", none)], some (1, 1)⟩

/-- C4: for a WorkflowJob/FreeStyleProject with a non-empty builds
list whose status fetches all succeed, the aggregator counts
`result == SUCCESS` builds into the successful total and
`result == FAILURE` builds into the failed total, any other result
into neither; the two-build SUCCESS/FAILURE freestyle scenario yields
counts (1, 1) and the projection emits one `runs_successful_total`
and one `runs_failed_total` sample of value 1 labeled `x`. -/
theorem run_outcome_aggregation (n : RNode)
    (hcls : n.cls = workflowJobClass ∨ n.cls = freeStyleClass)
    (hne : ¬ n.builds.isEmpty)
    (hok : ∀ b ∈ n.builds, b.respStatus = 200 ∧ b.respOk = true) :
    parseJobRuns n = .ok ⟨n.cls, n.fullName, n.statuses,
      some (n.builds.countP (fun b => b.payload.result == some "SUCCESS"),
            n.builds.countP (fun b => b.payload.result == some "FAILURE"))⟩
    ∧ parseChildren [scenarioNode] = .ok [scenarioJob]
    ∧ scenarioJob.runs = some (1, 1)
    ∧ projectJobs ⟨fun _ => [], fun _ => []⟩ [scenarioJob] =
        .ok [⟨"jenkins_runs_successful_total", "x", 1⟩,
             ⟨"jenkins_runs_failed_total", "x", 1⟩] := by
  refine ⟨parseJobRuns_counts n hcls hne hok, ?_, rfl, ?_⟩
  · simp [parseChildren, scenarioNode, scenarioJob, parseJobRuns,
      classifyBuilds, fetchBuild, apiCall, folderClass, orgFolderClass,
      multibranchClass, workflowJobClass, freeStyleClass, RNode.cls,
      RNode.builds, RNode.fullName, RNode.statuses]
  · rfl

theorem run_outcome_aggregation_witness :
    parseJobRuns scenarioNode = .ok ⟨scenarioNode.cls, scenarioNode.fullName,
      scenarioNode.statuses,
      some (scenarioNode.builds.countP (fun b => b.payload.result == some "SUCCESS"),
            scenarioNode.builds.countP (fun b => b.payload.result == some "FAILURE"))⟩ :=
  (run_outcome_aggregation scenarioNode (Or.inr rfl) (by decide)
    (by decide)).1

/-! ### Claims on the metric projection -/

theorem flatMap_nil_of_all {α β : Type} {l : List α} {f : α → List β}
    (h : ∀ x ∈ l, f x = []) : l.flatMap f = [] := by
  induction l with
  | nil => rfl
  | cons x l ih => simp_all

theorem topAdds_eq_nil (sd : Snapshot) (status name : String) (k : String × String)
    (h1 : k.2 = "duration" → truthyInt sd.duration = false)
    (h2 : k.2 = "timestamp" → truthyInt sd.timestamp = false)
    (h3 : k.2 = "number" → truthyInt sd.number = false) :
    topAdds sd status name k = [] := by
  rw [topAdds]
  split_ifs <;> simp_all [Prod.ext_iff]

theorem entryAdds_eq_nil (e : ActionEntry) (status name : String)
    (k : String × String)
    (h1 : k.2 = "queuingDurationMillis" → truthyInt e.queuingDurationMillis = false)
    (h2 : k.2 = "totalDurationMillis" → truthyInt e.totalDurationMillis = false)
    (h3 : k.2 = "skipCount" → truthyInt e.skipCount = false)
    (h4 : k.2 = "failCount" → truthyInt e.failCount = false)
    (h5 : k.2 = "totalCount" → truthyInt e.totalCount = false)
    (h6 : k.2 = "passCount" → truthyInt e.totalCount = false) :
    entryAdds e status name k = [] := by
  rw [entryAdds, counterAdds]
  split_ifs <;> simp_all [Prod.ext_iff]

/-- C2: per build snapshot, every numeric field that is absent (or
null) or exactly 0 yields no sample for that field, and the
suppression rule is the same truthiness test for the three top-level
fields and for the five action-counter fields. -/
theorem zero_and_absent_suppressed (st st' : PState) (status name : String)
    (sd : Snapshot) (job : Job)
    (h : addDataToPrometheusStructure st status sd job name = .ok st') :
    ((sd.duration = none ∨ sd.duration = some 0) →
      ∀ s, st'.fams (s, "duration") = st.fams (s, "duration"))
    ∧ ((sd.timestamp = none ∨ sd.timestamp = some 0) →
      ∀ s, st'.fams (s, "timestamp") = st.fams (s, "timestamp"))
    ∧ ((sd.number = none ∨ sd.number = some 0) →
      ∀ s, st'.fams (s, "number") = st.fams (s, "number"))
    ∧ ((∀ e ∈ sd.actions.getD [ActionEntry.empty],
        e.queuingDurationMillis = none ∨ e.queuingDurationMillis = some 0) →
      ∀ s, st'.fams (s, "queuingDurationMillis") = st.fams (s, "queuingDurationMillis"))
    ∧ ((∀ e ∈ sd.actions.getD [ActionEntry.empty],
        e.totalDurationMillis = none ∨ e.totalDurationMillis = some 0) →
      ∀ s, st'.fams (s, "totalDurationMillis") = st.fams (s, "totalDurationMillis"))
    ∧ ((∀ e ∈ sd.actions.getD [ActionEntry.empty],
        e.skipCount = none ∨ e.skipCount = some 0) →
      ∀ s, st'.fams (s, "skipCount") = st.fams (s, "skipCount"))
    ∧ ((∀ e ∈ sd.actions.getD [ActionEntry.empty],
        e.failCount = none ∨ e.failCount = some 0) →
      ∀ s, st'.fams (s, "failCount") = st.fams (s, "failCount"))
    ∧ ((∀ e ∈ sd.actions.getD [ActionEntry.empty],
        e.totalCount = none ∨ e.totalCount = some 0) →
      ∀ s, st'.fams (s, "totalCount") = st.fams (s, "totalCount")) := by
  have hc := addData_fams st st' status sd job name h
  refine ⟨?_, ?_, ?_, ?_, ?_, ?_, ?_, ?_⟩ <;> intro hz s <;>
    rw [hc (s, _)] <;>
    rw [topAdds_eq_nil, flatMap_nil_of_all] <;>
    first
    | (simp; done)
    | (simp_all [truthyInt_eq_false]; done)
    | (intro e he
       refine entryAdds_eq_nil e status name _ ?_ ?_ ?_ ?_ ?_ ?_ <;>
         intro hk <;>
         simp_all [truthyInt_eq_false])

theorem zero_and_absent_suppressed_witness :
    (∃ st', addDataToPrometheusStructure ⟨fun _ => [], fun _ => []⟩ "lastBuild"
        ⟨some 0, none, some 0, some [⟨none, some 0, none, some 0, none⟩]⟩
        ⟨freeStyleClass, "w", [], none⟩ "w" = .ok st'
      ∧ ∀ s, st'.fams (s, "duration") = [] ∧ st'.fams (s, "skipCount") = []) := by
  refine ⟨_, rfl, ?_⟩
  intro s
  have hall := zero_and_absent_suppressed ⟨fun _ => [], fun _ => []⟩ _ "lastBuild" "w"
    ⟨some 0, none, some 0, some [⟨none, some 0, none, some 0, none⟩]⟩
    ⟨freeStyleClass, "w", [], none⟩ rfl
  exact ⟨hall.1 (Or.inr rfl) s, (hall.2.2.2.2.2.1) (by decide) s⟩

theorem lookup_all_none :
    ∀ (l : List (String × Option Snapshot)),
    (∀ p ∈ l, p.2 = (none : Option Snapshot)) →
    ∀ s, l.lookup s = none ∨ l.lookup s = some none
  | [], _, _ => Or.inl rfl
  | p :: l, h, s => by
    have hp2 : p.2 = none := h p (List.mem_cons_self p l)
    by_cases hb : (s == p.1) = true
    · right
      obtain ⟨p1, p2⟩ := p
      simp only at hp2
      simp [List.lookup, hb, hp2]
    · have hb' : (s == p.1) = false := by simpa using hb
      obtain ⟨p1, p2⟩ := p
      simp only [List.lookup, hb']
      exact lookup_all_none l (fun q hq => h q (List.mem_cons_of_mem _ hq)) s

/-- C10: a tracked status key bound to null, and a snapshot lacking
the `actions` field, are both tolerated — the null snapshot is
replaced by an empty mapping and the missing actions list by one
empty placeholder entry — with no exception and no sample emitted for
the missing parts. -/
theorem null_snapshot_and_missing_actions_safe (st : PState) (name : String)
    (job : Job) (hnull : ∀ p ∈ job.statuses, p.2 = (none : Option Snapshot)) :
    (∃ st', getMetrics st name job = .ok st' ∧ ∀ k, st'.fams k = st.fams k)
    ∧ (∀ status sd, sd.actions = none →
        ∃ st', addDataToPrometheusStructure st status sd job name = .ok st'
          ∧ ∀ s φ, φ = "queuingDurationMillis" ∨ φ = "totalDurationMillis" ∨
              φ = "skipCount" ∨ φ = "failCount" ∨ φ = "totalCount" ∨
              φ = "passCount" →
            st'.fams (s, φ) = st.fams (s, φ)) := by
  constructor
  · have hlook := lookup_all_none job.statuses hnull
    have main : ∀ (ss : List String) (st0 : PState),
        ∃ st', ss.foldlM (getMetricsStep job name) st0 = .ok st'
          ∧ ∀ k, st'.fams k = st0.fams k := by
      intro ss
      induction ss with
      | nil => exact fun st0 => ⟨st0, rfl, fun _ => rfl⟩
      | cons s ss ih =>
        intro st0
        rcases hlook s with hl | hl
        · obtain ⟨st', h1, h2⟩ := ih st0
          exact ⟨st', by rw [List.foldlM_cons, getMetricsStep, hl]; exact h1, h2⟩
        · obtain ⟨st', h1, h2⟩ := ih (addRunFields st0 job name)
          refine ⟨st', ?_, ?_⟩
          · rw [List.foldlM_cons, getMetricsStep, hl]
            exact h1
          · intro k
            rw [h2 k, addRunFields_fams]

    exact main statuses st
  · intro status sd hact
    refine ⟨addRunFields (addTopFields st status sd name) job name, ?_, ?_⟩
    · rw [addDataToPrometheusStructure, hact]
      rfl
    · intro s φ hφ
      rw [congrFun (addRunFields_fams (addTopFields st status sd name) job name) (s, φ),
        addTopFields_fams, topAdds_eq_nil] <;>
        first
        | (simp; done)
        | (intro hk
           subst hk
           rcases hφ with h | h | h | h | h | h <;> exact absurd h (by decide))

theorem null_snapshot_and_missing_actions_safe_witness :
    ∃ st', getMetrics ⟨fun _ => [], fun _ => []⟩ "w"
        ⟨freeStyleClass, "w", [("lastBuild", none), ("lastFailedBuild", none)], none⟩ =
        .ok st'
      ∧ ∀ k, st'.fams k = (⟨fun _ => [], fun _ => []⟩ : PState).fams k :=
  (null_snapshot_and_missing_actions_safe ⟨fun _ => [], fun _ => []⟩ "w"
    ⟨freeStyleClass, "w", [("lastBuild", none), ("lastFailedBuild", none)], none⟩
    (by decide)).1

/-- C1: at an actions entry carrying `totalCount = 10` with `failCount`
and `skipCount` absent, the projection does not emit a passCount
sample equal to totalCount: the unguarded `metric.get('failCount')`
returns `None`, the subtraction raises `TypeError` and the call
fails.  With all three counters present the derived value is as
specified: `{totalCount 10, failCount 2, skipCount 1}` yields a
passCount sample of 7. -/
theorem passCount_typeError_on_absent_counters :
    addDataToPrometheusStructure ⟨fun _ => [], fun _ => []⟩ "lastBuild"
      ⟨none, none, none, some [⟨none, none, none, none, some 10⟩]⟩
      ⟨freeStyleClass, "j", [], none⟩ "j" = .error .typeError
    ∧ (∃ st', addDataToPrometheusStructure ⟨fun _ => [], fun _ => []⟩ "lastFailedBuild"
        ⟨none, none, none, some [⟨none, none, some 1, some 2, some 10⟩]⟩
        ⟨freeStyleClass, "j", [], none⟩ "j" = .ok st'
      ∧ st'.fams ("lastFailedBuild", "passCount") = [("j", 7)]
      ∧ st'.fams ("lastFailedBuild", "totalCount") = [("j", 10)]
      ∧ st'.fams ("lastFailedBuild", "failCount") = [("j", 2)]
      ∧ st'.fams ("lastFailedBuild", "skipCount") = [("j", 1)]) := by
  refine ⟨rfl, _, rfl, ?_, ?_, ?_, ?_⟩ <;>
    (norm_num [addRunFields, addTopFields, addCounterFields, PState.addFam,
      truthyInt, optVal]
     decide)

/-! ### Claims on the API client, orchestrator and naming -/

/-- C5 (amended): the API call fails — with an error carrying the URL
and status code — exactly when the HTTP status is not 200 or the body
fails to decode as JSON; on a 200 status the decoded body is
returned, with a decode failure raising. No retry exists: the result
is a pure function of the single recorded response. -/
theorem api_call_fails_iff_not_200 {α : Type} (url : String)
    (resp : HttpResponse α) :
    ((∃ e, apiCall url resp = .error e) ↔
      (resp.status ≠ 200 ∨ ∃ msg, resp.body = .error msg))
    ∧ (resp.status ≠ 200 → apiCall url resp = .error (.httpStatus url resp.status))
    ∧ (resp.status = 200 → ∀ v, resp.body = .ok v → apiCall url resp = .ok v)
    ∧ (resp.status = 200 → ∀ msg, resp.body = .error msg →
        apiCall url resp = .error (.badJson url)) := by
  by_cases h200 : resp.status = 200 <;>
    cases hb : resp.body <;>
    simp_all [apiCall]

theorem api_call_fails_iff_not_200_witness :
    apiCall "u" (⟨404, .ok 0⟩ : HttpResponse Nat) = .error (.httpStatus "u" 404)
    ∧ apiCall "u" (⟨200, .ok 5⟩ : HttpResponse Nat) = .ok 5 :=
  ⟨(api_call_fails_iff_not_200 "u" ⟨404, .ok 0⟩).2.1 (by decide),
   (api_call_fails_iff_not_200 "u" ⟨200, .ok 5⟩).2.2.1 rfl 5 rfl⟩

/-- C5 counterexample: 204 is a 2xx success status, yet the call
fails on it — the source compares against `requests.codes.ok`
(exactly 200), not the 2xx range. -/
theorem api_call_rejects_2xx_counterexample :
    is2xx 204 = true
    ∧ apiCall "http://jenkins:8080/api/json" (⟨204, .ok 0⟩ : HttpResponse Nat) =
        .error (.httpStatus "http://jenkins:8080/api/json" 204) := ⟨rfl, rfl⟩

/-- C6: a failed API call during traversal or aggregation aborts the
whole scrape cycle: the error propagates to the caller unchanged and
the cycle emits no sample set at all. -/
theorem scrape_all_or_nothing (prior : PState) (target : String)
    (root : HttpResponse (List RNode)) (e : Err)
    (h : requestData target root = .error e) :
    collect prior target root = .error e
    ∧ ∀ samples, collect prior target root ≠ .ok samples := by
  unfold collect
  rw [h]
  exact ⟨rfl, fun _ h' => Except.noConfusion h'⟩

/-- A server tree whose single freestyle leaf has a build status
endpoint answering HTTP 500. -/
def failingTree : List RNode :=
  [RNode.mk freeStyleClass "y" "uY" [⟨"b/", 500, true, ⟨some "SUCCESS", 1⟩⟩]
    [("lastBuild", none)] 200 true []]

theorem scrape_all_or_nothing_witness :
    collect ⟨fun _ => [], fun _ => []⟩ "http://jenkins:8080"
        ⟨200, .ok failingTree⟩ = .error (.httpStatus "b/api/json" 500) :=
  (scrape_all_or_nothing ⟨fun _ => [], fun _ => []⟩ "http://jenkins:8080"
    ⟨200, .ok failingTree⟩ (.httpStatus "b/api/json" 500)
    (by simp [requestData, apiCall, parseChildren, failingTree, parseJobRuns,
      classifyBuilds, fetchBuild, folderClass, orgFolderClass, multibranchClass,
      workflowJobClass, freeStyleClass, RNode.cls, RNode.builds, RNode.fullName,
      RNode.statuses])).1

/-- C9: the metric projection's output depends only on the flattened
job list: the per-scrape reset discards whatever metric structures the
collector object held from earlier scrapes, so two runs on the same
input produce the identical sample set. -/
theorem projection_deterministic_no_hidden_state (p1 p2 : PState)
    (jobs : List Job) : projectJobs p1 jobs = projectJobs p2 jobs := rfl

/-- Follows the spec's words (§4.4): the lower-snake-case token
replaces every uppercase letter of the StatusKind identifier by an
underscore plus its lowercase form, leaving other characters as they
are. Stated for comparison with `snakeCase`. -/
def specLowerSnake (s : String) : String :=
  String.mk (s.data.flatMap fun c => if c.isUpper then ['_', c.toLower] else [c])

theorem toLower_eq_self_of_not_upper (c : Char) (h : c.isUpper = false) :
    c.toLower = c := by
  rw [Char.isUpper] at h
  simp only [Bool.and_eq_false_iff, decide_eq_false_iff_not] at h
  rw [Char.toLower]
  split
  next hc =>
    exfalso
    obtain ⟨h1, h2⟩ := hc
    rcases h with h | h
    · exact h (show (65 : UInt32) ≤ c.val from h1)
    · exact h (show c.val ≤ (90 : UInt32) from h2)
  · rfl

/-- C7: the metric name is built from the lower-snake-case conversion
of the StatusKind identifier (every uppercase letter replaced by
underscore plus its lowercase form), `lastFailedBuild`'s duration
metric is exactly `jenkins_job_last_failed_build_duration_seconds`,
and every millisecond-valued source field is divided by 1000.0 before
emission. -/
theorem snake_case_naming_and_ms_conversion :
    (∀ s : String, snakeCase s = specLowerSnake s)
    ∧ famName "lastFailedBuild" "duration" =
        "jenkins_job_last_failed_build_duration_seconds"
    ∧ (∀ (st st' : PState) (status name : String) (sd : Snapshot) (job : Job),
        addDataToPrometheusStructure st status sd job name = .ok st' →
        (∀ d : Int, sd.duration = some d → d ≠ 0 →
          st'.fams (status, "duration") =
            st.fams (status, "duration") ++ [(name, (d : ℚ) / 1000)])
        ∧ (∀ t : Int, sd.timestamp = some t → t ≠ 0 →
          st'.fams (status, "timestamp") =
            st.fams (status, "timestamp") ++ [(name, (t : ℚ) / 1000)])
        ∧ (∀ (e : ActionEntry) (q : Int), sd.actions = some [e] →
            e.queuingDurationMillis = some q → q ≠ 0 →
          st'.fams (status, "queuingDurationMillis") =
            st.fams (status, "queuingDurationMillis") ++ [(name, (q : ℚ) / 1000)])
        ∧ (∀ (e : ActionEntry) (t : Int), sd.actions = some [e] →
            e.totalDurationMillis = some t → t ≠ 0 →
          st'.fams (status, "totalDurationMillis") =
            st.fams (status, "totalDurationMillis") ++ [(name, (t : ℚ) / 1000)])) := by
  refine ⟨?_, rfl, ?_⟩
  · intro s
    rw [snakeCase, specLowerSnake]
    congr 1
    induction s.data with
    | nil => rfl
    | cons c cs ih =>
      rw [List.flatMap_cons, List.flatMap_cons, List.map_append, ih]
      congr 1
      cases hc : c.isUpper with
      | true => simp [hc]
      | false => simp [hc, toLower_eq_self_of_not_upper c hc]
  · intro st st' status name sd job h
    have hc := addData_fams st st' status sd job name h
    refine ⟨?_, ?_, ?_, ?_⟩
    · intro d hd hne
      rw [hc (status, "duration"), topAdds, flatMap_nil_of_all]
      · simp [hd, truthyInt, optVal, bne_iff_ne, hne]
      · intro e he
        refine entryAdds_eq_nil e status name _ ?_ ?_ ?_ ?_ ?_ ?_ <;>
          intro hk <;> simp at hk
    · intro t ht hne
      rw [hc (status, "timestamp"), topAdds, flatMap_nil_of_all]
      · simp [ht, truthyInt, optVal, bne_iff_ne, hne]
      · intro e he
        refine entryAdds_eq_nil e status name _ ?_ ?_ ?_ ?_ ?_ ?_ <;>
          intro hk <;> simp at hk
    · intro e q hact hq hne
      rw [hc (status, "queuingDurationMillis"), topAdds_eq_nil, hact]
      · simp [entryAdds, counterAdds, hq, truthyInt, optVal, bne_iff_ne, hne]
      all_goals (intro hk; simp at hk)
    · intro e t hact ht hne
      rw [hc (status, "totalDurationMillis"), topAdds_eq_nil, hact]
      · simp [entryAdds, counterAdds, ht, truthyInt, optVal, bne_iff_ne, hne]
      all_goals (intro hk; simp at hk)

theorem snake_case_naming_and_ms_conversion_witness :
    snakeCase "lastFailedBuild" = specLowerSnake "lastFailedBuild"
    ∧ (∃ st', addDataToPrometheusStructure ⟨fun _ => [], fun _ => []⟩
        "lastFailedBuild" ⟨none, none, some 7000, none⟩
        ⟨freeStyleClass, "w", [], none⟩ "w" = .ok st'
      ∧ st'.fams ("lastFailedBuild", "duration") = [("w", 7)]) := by
  refine ⟨snake_case_naming_and_ms_conversion.1 "lastFailedBuild", _, rfl, ?_⟩
  rw [((snake_case_naming_and_ms_conversion.2.2 ⟨fun _ => [], fun _ => []⟩ _
    "lastFailedBuild" "w" ⟨none, none, some 7000, none⟩
    ⟨freeStyleClass, "w", [], none⟩ rfl).1 7000 rfl (by decide))]
  norm_num

end JenkinsExporter
